import Mathlib

/-!
Verification of the todoapp backend's task-store and authentication core.

The embedding below follows the Python source:
  * `app/models/task.py` — the `Task` record, `TaskCreate` and `TaskUpdate`
    payload shapes, and the `TaskPriority` enumeration;
  * `app/services/task_service.py` — `TaskService.get_tasks`, `create_task`,
    `update_task`, `get_task_by_id`, `update_task_completion`, `delete_task`;
  * `app/auth/jwt_service.py` — `JWTService.create_token` / `verify_token`;
  * `app/auth/jwt_handler.py` — `get_current_user`;
  * `app/auth/password_service.py` — `PasswordService.verify_password`;
  * `app/auth/signin_service.py` — `signin_user`, and the `/auth/signin`
    endpoint of `app/api/auth.py`.

The database session is modelled as an explicit list of records; each service
call returns its result together with the successor state.  UUIDs and
timestamps are modelled as natural numbers; datetimes only ever need ordering
and equality here.
-/

namespace TodoApp

/-- `TaskPriority` from `app/models/task.py`: a closed string enumeration
with declaration order LOW, MEDIUM, HIGH. -/
inductive TaskPriority where
  | low
  | medium
  | high
deriving DecidableEq, Repr

/-- The string value of the `TaskPriority` enum member, as compared against
the free-form `priority` query argument in `get_tasks`. -/
def TaskPriority.str : TaskPriority → String
  | .low => "low"
  | .medium => "medium"
  | .high => "high"

/-- Rank of a priority in enum declaration order; a native SQL enum column
orders by declaration order, which `order_by(Task.priority)` uses. -/
def TaskPriority.rank : TaskPriority → Nat
  | .low => 0
  | .medium => 1
  | .high => 2

/-- The persisted `Task` row (`class Task(TaskBase, table=True)` in
`app/models/task.py`): `TaskBase` fields plus id, owner id and timestamps. -/
structure Task where
  id : Nat
  user_id : Nat
  title : String
  description : Option String
  is_completed : Bool
  priority : TaskPriority
  created_at : Nat
  updated_at : Nat
deriving DecidableEq, Repr

/-- `TaskCreate` from `app/models/task.py`: the request body for task
creation, identical in shape to `TaskBase`. -/
structure TaskCreate where
  title : String
  description : Option String
  is_completed : Bool
  priority : TaskPriority
deriving DecidableEq, Repr

/-- Validity of a title under `TaskBase`'s field constraints
(`min_length=1, max_length=100`), enforced by FastAPI when the request body
is parsed as a `TaskCreate`. -/
def titleOk (s : String) : Bool :=
  1 ≤ s.length && s.length ≤ 100

/-- `TaskUpdate` from `app/models/task.py`.  A field equal to `none` models a
field the caller did not supply (pydantic "unset"; `model_dump(exclude_unset=True)`
drops it).  Note the source declares `updated_at` as a plain `datetime` with a
`default_factory` — it is a settable field like the others, and when absent
from the request body it is unset and therefore dropped by `exclude_unset`.
No length constraint exists on `title` here, unlike `TaskBase`. -/
structure TaskUpdate where
  title : Option String
  description : Option String
  is_completed : Option Bool
  priority : Option TaskPriority
  updated_at : Option Nat
deriving DecidableEq, Repr

/-- The status filter of `TaskService.get_tasks`:
`if status == "completed": … elif status == "pending": …` — any other value,
including `None` and unrecognized strings, adds no completion filter. -/
def statusKeep (status : Option String) (t : Task) : Bool :=
  if status = some "completed" then t.is_completed
  else if status = some "pending" then !t.is_completed
  else true

/-- The priority filter of `get_tasks`: `if priority:` is Python truthiness,
so both `None` and the empty string skip the filter; otherwise the enum
column is compared with the supplied string. -/
def priorityKeep (priority : Option String) (t : Task) : Bool :=
  match priority with
  | none => true
  | some p => if p = "" then true else t.priority.str == p

/-- Whether `needle` occurs as a contiguous run inside `hay`. -/
def charsContain (needle : List Char) : List Char → Bool
  | [] => needle.isEmpty
  | c :: cs => needle.isPrefixOf (c :: cs) || charsContain needle cs

/-- The search filter of `get_tasks`: `if search:` (truthy), then
`col(Task.title).ilike(f"%{search}%")` — a case-insensitive substring
match of `search` against the title. -/
def searchKeep (search : Option String) (t : Task) : Bool :=
  match search with
  | none => true
  | some s => if s = "" then true else charsContain s.toLower.toList t.title.toLower.toList

/-- Stable insertion of `t` into `l` keeping elements satisfying `le · t`
in front: helper for the `order_by` model. -/
def insertByLe (le : Task → Task → Bool) (t : Task) : List Task → List Task
  | [] => [t]
  | x :: xs => if le x t then x :: insertByLe le t xs else t :: x :: xs

/-- Stable insertion sort: the model of SQL `ORDER BY` over the filtered
rows (ties keep insertion order, per the row order the backend returns). -/
def sortByLe (le : Task → Task → Bool) : List Task → List Task
  | [] => []
  | x :: xs => insertByLe le x (sortByLe le xs)

/-- The `order_by` key chosen by `get_tasks`' `sort_by` argument:
`"priority"` sorts by the priority column, `"title"` by title, and anything
else by `created_at` descending (the default branch). -/
def sortLe (sort_by : String) : Task → Task → Bool :=
  if sort_by = "priority" then fun a b => a.priority.rank ≤ b.priority.rank
  else if sort_by = "title" then fun a b => !(decide (b.title < a.title))
  else fun a b => b.created_at ≤ a.created_at

/-- `TaskService.get_tasks` (`app/services/task_service.py`): select tasks of
`user_id`, narrow by the optional status / priority / search filters, then
order by the `sort_by` key. -/
def get_tasks (db : List Task) (user_id : Nat) (status priority search : Option String)
    (sort_by : String) : List Task :=
  sortByLe (sortLe sort_by)
    (((db.filter (fun t => t.user_id == user_id)).filter (statusKeep status)
        |>.filter (priorityKeep priority)).filter (searchKeep search))

/-- The shared lookup of `update_task`, `get_task_by_id`,
`update_task_completion` and `delete_task`:
`select(Task).where(Task.id == task_id, Task.user_id == user_id)` followed by
`.first()` — the first row matching both the id and the owner. -/
def find_task (db : List Task) (task_id user_id : Nat) : Option Task :=
  db.find? (fun t => t.id == task_id && t.user_id == user_id)

/-- Replace the first record satisfying `p` — the in-place mutation of the
row object the session returned. -/
def replaceFirst (p : Task → Bool) (t' : Task) : List Task → List Task
  | [] => []
  | x :: xs => if p x then t' :: xs else x :: replaceFirst p t' xs

/-- Remove the first record satisfying `p` — `session.delete(db_task)`. -/
def removeFirst (p : Task → Bool) : List Task → List Task
  | [] => []
  | x :: xs => if p x then xs else x :: removeFirst p xs

/-- The field-merge loop of `update_task`:
`for key, value in task_data.model_dump(exclude_unset=True).items():
setattr(db_task, key, value)` — each supplied field overwrites the stored
one, each unsupplied field is absent from the dump and left alone.  `id`,
`user_id` and `created_at` are not `TaskUpdate` fields and are never touched. -/
def applyPatch (t : Task) (u : TaskUpdate) : Task :=
  { t with
    title := u.title.getD t.title
    description := match u.description with
      | some d => some d
      | none => t.description
    is_completed := u.is_completed.getD t.is_completed
    priority := u.priority.getD t.priority
    updated_at := u.updated_at.getD t.updated_at }

/-- `TaskService.get_task_by_id`. -/
def get_task_by_id (db : List Task) (task_id user_id : Nat) : Option Task :=
  find_task db task_id user_id

/-- `TaskService.update_task`: returns the value returned to the caller
together with the successor database state.  On a miss it returns `None`
and leaves the store untouched; on a hit it merges the patch into the row
and commits. -/
def update_task (db : List Task) (task_id : Nat) (task_data : TaskUpdate)
    (user_id : Nat) : Option Task × List Task :=
  match find_task db task_id user_id with
  | none => (none, db)
  | some t =>
      let t' := applyPatch t task_data
      (some t', replaceFirst (fun x => x.id == task_id && x.user_id == user_id) t' db)

/-- `TaskService.update_task_completion`: sets `is_completed` and stamps
`updated_at = datetime.now(timezone.utc)`, passed here as `now`. -/
def update_task_completion (db : List Task) (task_id : Nat) (completed : Bool)
    (user_id now : Nat) : Option Task × List Task :=
  match find_task db task_id user_id with
  | none => (none, db)
  | some t =>
      let t' := { t with is_completed := completed, updated_at := now }
      (some t', replaceFirst (fun x => x.id == task_id && x.user_id == user_id) t' db)

/-- `TaskService.delete_task`: `False` on a miss, otherwise remove the row
and return `True`. -/
def delete_task (db : List Task) (task_id user_id : Nat) : Bool × List Task :=
  match find_task db task_id user_id with
  | none => (false, db)
  | some _ => (true, removeFirst (fun x => x.id == task_id && x.user_id == user_id) db)

/-- `TaskService.create_task`: `Task.model_validate(task_data,
update={"user_id": user_id})` then insert.  The fresh id and the two
timestamps come from the model's default factories (`uuid4`,
`datetime.now`), passed here explicitly.  The `task_data` body has already
passed `TaskCreate` validation at the FastAPI boundary. -/
def create_task (db : List Task) (task_data : TaskCreate) (user_id fresh_id now : Nat) :
    Task × List Task :=
  let t : Task :=
    { id := fresh_id
      user_id := user_id
      title := task_data.title
      description := task_data.description
      is_completed := task_data.is_completed
      priority := task_data.priority
      created_at := now
      updated_at := now }
  (t, db ++ [t])

/-- The payload handed to `JWTService.create_token` by `signin_user` /
`signup_user`: `{"id": str(user.id), "user_id": str(user.id), "email":
user.email}`. -/
structure JwtPayload where
  id : String
  user_id : String
  email : String
deriving DecidableEq, Repr

/-- The claim set carried by an encoded token: the caller-supplied payload
plus the `iat` and `exp` claims that `create_token` adds. -/
structure TokenClaims where
  id : String
  user_id : String
  email : String
  iat : Nat
  exp : Nat
deriving DecidableEq, Repr

/-- A token string as `jwt.decode` sees it: either a well-formed JWT whose
claim set was signed (HS256) under some key, or a string that fails JWT
parsing altogether.  The signing key stands for the HMAC: decoding with a
secret succeeds exactly when the token was signed with that same secret. -/
inductive TokenInput where
  | wellFormed (claims : TokenClaims) (sigKey : Nat)
  | malformed (raw : String)
deriving DecidableEq, Repr

/-- `JWTService.create_token` (`app/auth/jwt_service.py`):
`token_payload = {**payload, "iat": now, "exp": now + JWT_EXPIRES_IN}`, then
`jwt.encode(token_payload, JWT_SECRET, algorithm="HS256")`. -/
def create_token (payload : JwtPayload) (secret now expiresIn : Nat) : TokenInput :=
  .wellFormed ⟨payload.id, payload.user_id, payload.email, now, now + expiresIn⟩ secret

/-- `JWTService.verify_token`: `jwt.decode` verifies the signature first —
a malformed token or a signature mismatch raises `InvalidTokenError`,
re-raised as `ValueError("Invalid token")` — then validates `exp` against
the current time with zero leeway (`exp ≤ now` raises
`ExpiredSignatureError`, re-raised as `ValueError("Token expired")`).  On
success the decoded claim set is returned.  The `Except` error is the
message of the `ValueError` raised. -/
def verify_token (token : TokenInput) (secret now : Nat) : Except String TokenClaims :=
  match token with
  | .malformed _ => .error "Invalid token"
  | .wellFormed c k =>
      if k = secret then
        if c.exp ≤ now then .error "Token expired" else .ok c
      else .error "Invalid token"

/-- The `HTTPException` raised by the FastAPI layers: status code, `detail`
string, and the optional `WWW-Authenticate` challenge header. -/
structure HttpError where
  status_code : Nat
  detail : String
  www_authenticate : Option String
deriving DecidableEq, Repr

/-- `get_current_user` (`app/auth/jwt_handler.py`): return
`JWTService.verify_token(token)`, and on `ValueError e` raise
`HTTPException(401, detail=str(e), headers={"WWW-Authenticate": "Bearer"})`. -/
def get_current_user (token : TokenInput) (secret now : Nat) : Except HttpError TokenClaims :=
  match verify_token token secret now with
  | .ok c => .ok c
  | .error msg => .error ⟨401, msg, some "Bearer"⟩

/-- Well-formedness of a stored bcrypt hash as the bcrypt library's salt
parser accepts it: the `$2b$` version produced by `gensalt()` and the fixed
60-character modular-crypt layout.  `bcrypt.hashpw` — and therefore
`bcrypt.checkpw`, which calls it — raises `ValueError("Invalid salt")` on
any input failing this shape. -/
def bcryptWellFormed (hashed : String) : Bool :=
  List.isPrefixOf (String.toList "$2b$") hashed.toList && hashed.toList.length == 60

/-- Stand-in for the 31-character Blowfish-based digest that `hashpw`
appends to the 29-character `$2b$cost$salt` prefix.  The digest itself is a
one-way computation whose arithmetic no claim here depends on; only
`checkpw`'s control flow matters, so a simple computable mixing function
takes its place. -/
def bcryptDigest (password : String) (saltPrefix : List Char) : List Char :=
  let seed := (password.toList ++ saltPrefix).foldl
    (fun a c => (a * 131 + c.toNat) % 1000000007) 7
  (List.range 31).map (fun i => Char.ofNat (97 + (seed + 37 * i) % 26))

/-- `bcrypt.checkpw(password, hashed)`: recompute `hashpw(password,
hashed)` — reusing `hashed`'s 29-character salt prefix — and compare with a
constant-time digest comparison; a `hashed` that fails salt parsing raises
`ValueError("Invalid salt")` instead. -/
def checkpw (password hashed : String) : Except String Bool :=
  if bcryptWellFormed hashed then
    .ok (hashed.toList == hashed.toList.take 29 ++ bcryptDigest password (hashed.toList.take 29))
  else
    .error "Invalid salt"

/-- `PasswordService.verify_password` (`app/auth/password_service.py`): a
direct call to `bcrypt.checkpw` with no exception handling of its own, so
bcrypt's `ValueError` propagates to the caller. -/
def verify_password (password hashed : String) : Except String Bool :=
  checkpw password hashed

/-- The persisted `User` row (`app/models/user.py`): the fields signin
reads. -/
structure User where
  id : String
  email : String
  name : String
  hashed_password : String
deriving DecidableEq, Repr

/-- The success payload of `signin_user`: `{"access_token": token, "user":
{"id", "email", "name"}}`. -/
structure SigninOk where
  access_token : TokenInput
  user_id : String
  user_email : String
  user_name : String
deriving DecidableEq, Repr

/-- `signin_user` (`app/auth/signin_service.py`): look the user up by
email; if absent raise `ValueError("Signin failed")`; if
`verify_password` returns false raise `ValueError("Signin failed")` (a
`ValueError` raised inside `verify_password` itself propagates unchanged);
otherwise mint a token over `{"id", "user_id", "email"}` and return it with
the public user fields.  The `Except` error is the `ValueError` message. -/
def signin_user (db : List User) (email password : String) (secret now expiresIn : Nat) :
    Except String SigninOk :=
  match db.find? (fun u => u.email == email) with
  | none => .error "Signin failed"
  | some u =>
      match verify_password password u.hashed_password with
      | .error e => .error e
      | .ok false => .error "Signin failed"
      | .ok true =>
          .ok ⟨create_token ⟨u.id, u.id, u.email⟩ secret now expiresIn, u.id, u.email, u.name⟩

/-- The `/auth/signin` endpoint (`app/api/auth.py`): `except ValueError as
e: raise HTTPException(status_code=401, detail=str(e))` — every
`ValueError` becomes a 401 whose detail is the error's message, with no
challenge header. -/
def signin_endpoint (db : List User) (email password : String) (secret now expiresIn : Nat) :
    Except HttpError SigninOk :=
  match signin_user db email password secret now expiresIn with
  | .ok r => .ok r
  | .error msg => .error ⟨401, msg, none⟩

/-- Concrete sample task owned by account 1. -/
def exTask : Task :=
  { id := 10, user_id := 1, title := "Buy milk", description := none,
    is_completed := false, priority := .high, created_at := 100, updated_at := 100 }

/-- Concrete sample task owned by account 2. -/
def exTaskB : Task :=
  { id := 11, user_id := 2, title := "Walk dog", description := none,
    is_completed := false, priority := .medium, created_at := 90, updated_at := 90 }

/-- Concrete sample store holding one task of each owner. -/
def exDb : List Task := [exTask, exTaskB]

/-- A patch supplying no field at all. -/
def exEmptyPatch : TaskUpdate :=
  { title := none, description := none, is_completed := none, priority := none,
    updated_at := none }

/-- A patch supplying only a new title. -/
def exTitlePatch : TaskUpdate :=
  { title := some "Buy oat milk", description := none, is_completed := none,
    priority := none, updated_at := none }

/-- A patch supplying only an empty title. -/
def exEmptyTitlePatch : TaskUpdate :=
  { title := some "", description := none, is_completed := none,
    priority := none, updated_at := none }

/-- A patch supplying only `updated_at = 7`. -/
def exStampPatch : TaskUpdate :=
  { title := none, description := none, is_completed := none, priority := none,
    updated_at := some 7 }

/-- A patch supplying only `updated_at = 40`, earlier than `exTask`'s
stored value 100. -/
def exBackPatch : TaskUpdate :=
  { title := none, description := none, is_completed := none, priority := none,
    updated_at := some 40 }

/-- Concrete sample claim set: issued at 0, expiring at 50. -/
def exClaims : TokenClaims :=
  { id := "u1", user_id := "u1", email := "a@x.com", iat := 0, exp := 50 }

/-- A syntactically valid 60-character `$2b$` hash whose digest part does
not match any password under the digest stand-in (its digest characters
are uppercase while the stand-in emits lowercase). -/
def exStoredHash : String :=
  "$2b$12$abcdefghijklmnopqrstuvABCDEFGHIJKLMNOPQRSTUVWXYZabcde"

/-- Concrete sample account row. -/
def exUser : User :=
  { id := "u1", email := "a@x.com", name := "Alice", hashed_password := exStoredHash }

theorem mem_insertByLe (le : Task → Task → Bool) (t x : Task) (l : List Task) :
    x ∈ insertByLe le t l ↔ x = t ∨ x ∈ l := by
  induction l with
  | nil => simp [insertByLe]
  | cons y ys ih =>
      by_cases h : le y t = true
      · simp [insertByLe, h, ih]
        try tauto
      · simp [insertByLe, h]
        try tauto

theorem mem_sortByLe (le : Task → Task → Bool) (x : Task) (l : List Task) :
    x ∈ sortByLe le l ↔ x ∈ l := by
  induction l with
  | nil => simp [sortByLe]
  | cons y ys ih =>
      simp [sortByLe, mem_insertByLe, ih]

theorem find_task_none (db : List Task) (tid A : Nat)
    (h : ∀ t ∈ db, ¬(t.id = tid ∧ t.user_id = A)) :
    find_task db tid A = none := by
  unfold find_task
  rw [List.find?_eq_none]
  intro t ht
  have := h t ht
  simp only [Bool.and_eq_true, beq_iff_eq]
  tauto

theorem mem_of_replaceFirst (p : Task → Bool) (t' x : Task) (l : List Task) :
    x ∈ replaceFirst p t' l → x = t' ∨ x ∈ l := by
  induction l with
  | nil =>
      intro h
      simp [replaceFirst] at h
  | cons y ys ih =>
      intro h
      by_cases hp : p y = true
      · simp only [replaceFirst, hp, if_true, List.mem_cons] at h
        rcases h with h | h
        · exact Or.inl h
        · exact Or.inr (List.mem_cons_of_mem y h)
      · simp [replaceFirst, hp] at h
        rcases h with h | h
        · exact Or.inr (h ▸ List.mem_cons_self y ys)
        · rcases ih h with h' | h'
          · exact Or.inl h'
          · exact Or.inr (List.mem_cons_of_mem y h')

theorem mem_of_removeFirst (p : Task → Bool) (x : Task) (l : List Task) :
    x ∈ removeFirst p l → x ∈ l := by
  induction l with
  | nil =>
      intro h
      simp [removeFirst] at h
  | cons y ys ih =>
      intro h
      by_cases hp : p y = true
      · simp only [removeFirst, hp, if_true] at h
        exact List.mem_cons_of_mem y h
      · simp [removeFirst, hp] at h
        rcases h with h | h
        · exact h ▸ List.mem_cons_self y ys
        · exact List.mem_cons_of_mem y (ih h)

theorem replaceFirst_self_mem (p : Task → Bool) (t' : Task) (l : List Task) (t : Task) :
    l.find? p = some t → t' ∈ replaceFirst p t' l := by
  induction l with
  | nil =>
      intro h
      simp [List.find?] at h
  | cons y ys ih =>
      intro h
      by_cases hp : p y = true
      · simp [replaceFirst, hp]
      · simp only [List.find?, hp] at h
        simp only [replaceFirst, hp, List.mem_cons]
        simp only [Bool.false_eq_true, if_false]
        exact List.mem_cons_of_mem y (ih h)

/-- C1: for every owner `A` and every combination of status, priority,
search and sort arguments, every task in the list returned by
`TaskService.get_tasks` is owned by `A` — the owner filter is applied
unconditionally before any optional filter or sort. -/
theorem c1_get_tasks_owner_scoped (db : List Task) (A : Nat)
    (status priority search : Option String) (sort_by : String) (t : Task)
    (h : t ∈ get_tasks db A status priority search sort_by) :
    t.user_id = A := by
  unfold get_tasks at h
  rw [mem_sortByLe] at h
  have h1 := (List.mem_filter.mp h).1
  have h2 := (List.mem_filter.mp h1).1
  have h3 := (List.mem_filter.mp h2).1
  have h4 := (List.mem_filter.mp h3).2
  simpa using h4

/-- Witness for C1 at a concrete store: the task returned for owner 1 is
owned by 1. -/
theorem c1_get_tasks_owner_scoped_witness : exTask.user_id = 1 :=
  c1_get_tasks_owner_scoped exDb 1 none none none "created_at" exTask (by decide)

/-- C10: a `status` argument that is neither `"completed"` nor `"pending"`
adds no completion filter: the result is exactly that of an omitted
status. -/
theorem c10_unrecognized_status_ignored (db : List Task) (A : Nat) (s : String)
    (priority search : Option String) (sort_by : String)
    (h1 : s ≠ "completed") (h2 : s ≠ "pending") :
    get_tasks db A (some s) priority search sort_by
      = get_tasks db A none priority search sort_by := by
  unfold get_tasks
  congr 1
  congr 1
  congr 1
  apply List.filter_congr
  intro t ht
  simp [statusKeep, h1, h2]

/-- Witness for C10 at a concrete store: `status="archived"` returns the
same list as no status at all. -/
theorem c10_unrecognized_status_ignored_witness :
    get_tasks exDb 1 (some "archived") none none "created_at"
      = get_tasks exDb 1 none none none "created_at" :=
  c10_unrecognized_status_ignored exDb 1 "archived" none none "created_at"
    (by decide) (by decide)

/-- C2: for an id that exists only under another owner (`hB`) and an id that
exists nowhere (`hM`), `get_task_by_id`, `update_task` and `delete_task`
called by owner `A` return literally the same results — `none`, `none` with
the store untouched, and `false` with the store untouched — so ownership
mismatch is indistinguishable from absence. -/
theorem c2_wrong_owner_like_missing (db : List Task) (A idB idMissing : Nat)
    (u : TaskUpdate)
    (hB : ∀ t ∈ db, t.id = idB → t.user_id ≠ A)
    (hM : ∀ t ∈ db, t.id ≠ idMissing) :
    get_task_by_id db idB A = none ∧
    get_task_by_id db idB A = get_task_by_id db idMissing A ∧
    update_task db idB u A = (none, db) ∧
    update_task db idB u A = update_task db idMissing u A ∧
    delete_task db idB A = (false, db) ∧
    delete_task db idB A = delete_task db idMissing A := by
  have hfB : find_task db idB A = none :=
    find_task_none db idB A (fun t ht hc => hB t ht hc.1 hc.2)
  have hfM : find_task db idMissing A = none :=
    find_task_none db idMissing A (fun t ht hc => hM t ht hc.1)
  refine ⟨?_, ?_, ?_, ?_, ?_, ?_⟩ <;>
    simp [get_task_by_id, update_task, delete_task, hfB, hfM]

/-- Witness for C2 at a concrete store: owner 1 probing id 11 (owned by
account 2) and id 99 (absent) gets identical NotFound outcomes. -/
theorem c2_wrong_owner_like_missing_witness :
    get_task_by_id exDb 11 1 = none ∧
    get_task_by_id exDb 11 1 = get_task_by_id exDb 99 1 ∧
    update_task exDb 11 exEmptyPatch 1 = (none, exDb) ∧
    update_task exDb 11 exEmptyPatch 1 = update_task exDb 99 exEmptyPatch 1 ∧
    delete_task exDb 11 1 = (false, exDb) ∧
    delete_task exDb 11 1 = delete_task exDb 99 1 :=
  c2_wrong_owner_like_missing exDb 1 11 99 exEmptyPatch (by decide) (by decide)

/-- C3 counterexample: the claim says every successful partial update
refreshes `updated_at` to a value ≥ its pre-update value.  But `TaskUpdate`
carries `updated_at` as an ordinary settable field and
`model_dump(exclude_unset=True)` applies exactly the supplied fields, so a
patch supplying only `updated_at = 40` against `exTask` (whose stored
`updated_at` is 100) succeeds and stores 40 < 100. -/
theorem c3_counterexample :
    exTask.updated_at = 100 ∧
    (update_task exDb 10 exBackPatch 1).1.map Task.updated_at = some 40 ∧
    40 < 100 := by
  decide

/-- C3 amended: a successful partial update leaves every unsupplied field —
and the never-patchable `id`, `user_id`, `created_at` — at its pre-update
value; `updated_at` is not refreshed automatically: it becomes exactly the
supplied value when the patch carries one and otherwise keeps its
pre-update value. -/
theorem c3_amended_update_frame (db : List Task) (tid A : Nat) (u : TaskUpdate)
    (t : Task) (h : find_task db tid A = some t) :
    (update_task db tid u A).1 = some (applyPatch t u) ∧
    (applyPatch t u).id = t.id ∧
    (applyPatch t u).user_id = t.user_id ∧
    (applyPatch t u).created_at = t.created_at ∧
    (u.title = none → (applyPatch t u).title = t.title) ∧
    (u.description = none → (applyPatch t u).description = t.description) ∧
    (u.is_completed = none → (applyPatch t u).is_completed = t.is_completed) ∧
    (u.priority = none → (applyPatch t u).priority = t.priority) ∧
    (applyPatch t u).updated_at = u.updated_at.getD t.updated_at := by
  refine ⟨?_, rfl, rfl, rfl, ?_, ?_, ?_, ?_, rfl⟩
  · simp [update_task, h]
  · intro hu
    simp [applyPatch, hu]
  · intro hu
    simp [applyPatch, hu]
  · intro hu
    simp [applyPatch, hu]
  · intro hu
    simp [applyPatch, hu]

/-- Witness for the amended C3 at a concrete store: patching only the title
of task 10 keeps its other fields and leaves `updated_at` at 100. -/
theorem c3_amended_update_frame_witness :
    (update_task exDb 10 exTitlePatch 1).1 = some (applyPatch exTask exTitlePatch) ∧
    (applyPatch exTask exTitlePatch).updated_at = exTask.updated_at :=
  ⟨(c3_amended_update_frame exDb 10 1 exTitlePatch exTask (by decide)).1,
   (c3_amended_update_frame exDb 10 1 exTitlePatch exTask (by decide)).2.2.2.2.2.2.2.2⟩

/-- C9: `TaskUpdate` includes `updated_at` as a settable field; when the
patch supplies `updated_at = v`, the task returned by a successful
`update_task` carries exactly `v`, and that patched row is what the
successor store holds. -/
theorem c9_caller_chosen_updated_at (db : List Task) (tid A v : Nat)
    (u : TaskUpdate) (t : Task)
    (hfind : find_task db tid A = some t) (hset : u.updated_at = some v) :
    (update_task db tid u A).1 = some (applyPatch t u) ∧
    (applyPatch t u).updated_at = v ∧
    applyPatch t u ∈ (update_task db tid u A).2 := by
  refine ⟨?_, ?_, ?_⟩
  · simp [update_task, hfind]
  · simp [applyPatch, hset]
  · simp only [update_task, hfind]
    exact replaceFirst_self_mem _ _ db t hfind

/-- Witness for C9 at a concrete store: a patch carrying `updated_at = 7`
stores exactly 7. -/
theorem c9_caller_chosen_updated_at_witness :
    (update_task exDb 10 exStampPatch 1).1 = some (applyPatch exTask exStampPatch) ∧
    (applyPatch exTask exStampPatch).updated_at = 7 ∧
    applyPatch exTask exStampPatch ∈ (update_task exDb 10 exStampPatch 1).2 :=
  c9_caller_chosen_updated_at exDb 10 1 7 exStampPatch exTask (by decide) (by decide)

/-- C5 counterexample: the claim says the 1–100 title bound holds in every
reachable state and is preserved by update.  But `TaskUpdate.title` is a
plain `Optional[str]` with no length constraint, so updating task 10 of the
(valid) store `exDb` with `title = ""` succeeds and the successor store
contains a task whose title is empty. -/
theorem c5_counterexample :
    (∀ t ∈ exDb, titleOk t.title = true) ∧
    ((update_task exDb 10 exEmptyTitlePatch 1).2.any
        (fun t => !titleOk t.title)) = true := by
  decide

/-- C5 amended: on a store whose titles are all in 1–100, the invariant is
preserved by `create_task` (whose `TaskCreate` body passed the boundary
validation), by `update_task_completion` and by `delete_task`; `update_task`
preserves it only under the extra condition that the supplied title, if
any, is itself in bounds — `TaskUpdate` does not enforce this. -/
theorem c5_amended_title_invariant (db : List Task)
    (hdb : ∀ t ∈ db, titleOk t.title = true) :
    (∀ c : TaskCreate, ∀ uid fid now, titleOk c.title = true →
        ∀ t ∈ (create_task db c uid fid now).2, titleOk t.title = true) ∧
    (∀ tid cpl uid now,
        ∀ t ∈ (update_task_completion db tid cpl uid now).2, titleOk t.title = true) ∧
    (∀ tid uid, ∀ t ∈ (delete_task db tid uid).2, titleOk t.title = true) ∧
    (∀ tid uid, ∀ u : TaskUpdate, (∀ s, u.title = some s → titleOk s = true) →
        ∀ t ∈ (update_task db tid u uid).2, titleOk t.title = true) := by
  refine ⟨?_, ?_, ?_, ?_⟩
  · intro c uid fid now hc t ht
    simp only [create_task, List.mem_append, List.mem_singleton] at ht
    rcases ht with ht | ht
    · exact hdb t ht
    · rw [ht]
      exact hc
  · intro tid cpl uid now t ht
    unfold update_task_completion at ht
    cases hfind : find_task db tid uid with
    | none =>
        rw [hfind] at ht
        exact hdb t ht
    | some t0 =>
        rw [hfind] at ht
        rcases mem_of_replaceFirst _ _ _ _ ht with h | h
        · rw [h]
          exact hdb t0 (List.mem_of_find?_eq_some hfind)
        · exact hdb t h
  · intro tid uid t ht
    unfold delete_task at ht
    cases hfind : find_task db tid uid with
    | none =>
        rw [hfind] at ht
        exact hdb t ht
    | some t0 =>
        rw [hfind] at ht
        exact hdb t (mem_of_removeFirst _ _ _ ht)
  · intro tid uid u hu t ht
    unfold update_task at ht
    cases hfind : find_task db tid uid with
    | none =>
        rw [hfind] at ht
        exact hdb t ht
    | some t0 =>
        rw [hfind] at ht
        rcases mem_of_replaceFirst _ _ _ _ ht with h | h
        · rw [h]
          have ht0 := hdb t0 (List.mem_of_find?_eq_some hfind)
          cases hut : u.title with
          | none => simpa [applyPatch, hut] using ht0
          | some s => simpa [applyPatch, hut] using hu s hut
        · exact hdb t h

/-- Witness for the amended C5 at a concrete store: after toggling
completion of task 10, the untouched task 11 still has a title in bounds. -/
theorem c5_amended_title_invariant_witness : titleOk exTaskB.title = true :=
  (c5_amended_title_invariant exDb (by decide)).2.1 10 true 1 200 exTaskB (by decide)

/-- C4 counterexample: an expired but correctly signed token and a malformed
token both produce a 401 with the Bearer challenge, but the externally
visible `detail` differs — "Token expired" versus "Invalid token" — so the
caller can tell the two causes apart, contrary to the claim. -/
theorem c4_counterexample :
    get_current_user (.wellFormed exClaims 5) 5 60
      = .error { status_code := 401, detail := "Token expired",
                 www_authenticate := some "Bearer" } ∧
    get_current_user (.malformed "garbage") 5 60
      = .error { status_code := 401, detail := "Invalid token",
                 www_authenticate := some "Bearer" } ∧
    "Token expired" ≠ "Invalid token" := by
  refine ⟨by rfl, by rfl, by decide⟩

/-- C4 amended: every rejected token yields the same status (401) and the
same challenge header ("Bearer"), but the `detail` surfaced to the caller is
the `ValueError` message of the verification failure — "Token expired" when
the token is expired, "Invalid token" when it is malformed or its signature
fails — so the root cause is externally distinguishable. -/
theorem c4_amended_auth_failure_shape (token : TokenInput) (secret now : Nat)
    (msg : String) (h : verify_token token secret now = .error msg) :
    get_current_user token secret now
      = .error { status_code := 401, detail := msg, www_authenticate := some "Bearer" } ∧
    (msg = "Token expired" ∨ msg = "Invalid token") := by
  constructor
  · unfold get_current_user
    rw [h]
  · cases token with
    | malformed raw =>
        simp only [verify_token] at h
        injection h with h
        exact Or.inr h.symm
    | wellFormed c k =>
        simp only [verify_token] at h
        by_cases hk : k = secret
        · rw [if_pos hk] at h
          by_cases he : c.exp ≤ now
          · rw [if_pos he] at h
            injection h with h
            exact Or.inl h.symm
          · rw [if_neg he] at h
            exact absurd h (by simp)
        · rw [if_neg hk] at h
          injection h with h
          exact Or.inr h.symm

/-- Witness for the amended C4: the expired sample token gets the 401 /
Bearer / "Token expired" response. -/
theorem c4_amended_auth_failure_shape_witness :
    get_current_user (.wellFormed exClaims 5) 5 60
      = .error { status_code := 401, detail := "Token expired",
                 www_authenticate := some "Bearer" } ∧
    ("Token expired" = "Token expired" ∨ "Token expired" = "Invalid token") :=
  c4_amended_auth_failure_shape (.wellFormed exClaims 5) 5 60 "Token expired" (by rfl)

/-- C6 counterexample: `verify_password` on a malformed hash does not
return false — it propagates bcrypt's `ValueError("Invalid salt")`, because
`PasswordService.verify_password` wraps `bcrypt.checkpw` in no exception
handler. -/
theorem c6_counterexample :
    verify_password "hunter2" "not-a-bcrypt-hash" = .error "Invalid salt" ∧
    verify_password "hunter2" "not-a-bcrypt-hash" ≠ .ok false := by
  constructor
  · rfl
  · intro h
    rw [show verify_password "hunter2" "not-a-bcrypt-hash"
          = Except.error "Invalid salt" from rfl] at h
    exact Except.noConfusion h

/-- C6 amended: for every password and every hash string failing bcrypt's
salt parsing, `verify_password` raises `ValueError("Invalid salt")` —
never returning a boolean — since the service adds no exception handling
around `bcrypt.checkpw`. -/
theorem c6_amended_malformed_hash_raises (password hashed : String)
    (h : bcryptWellFormed hashed = false) :
    verify_password password hashed = .error "Invalid salt" := by
  unfold verify_password checkpw
  rw [h]
  rfl

/-- Witness for the amended C6 at a concrete input. -/
theorem c6_amended_malformed_hash_raises_witness :
    verify_password "hunter2" "$2x$bogus" = .error "Invalid salt" :=
  c6_amended_malformed_hash_raises "hunter2" "$2x$bogus" (by decide)

/-- C7: a signin whose email matches no account (`h1`) and a signin whose
email matches `u` but whose password fails verification (`h3`) raise the
identical `ValueError("Signin failed")`, and the `/auth/signin` endpoint
turns both into the identical 401 response. -/
theorem c7_signin_uniform_failure (db : List User)
    (email1 email2 password1 password2 : String) (secret now win : Nat) (u : User)
    (h1 : ∀ x ∈ db, x.email ≠ email1)
    (h2 : db.find? (fun x => x.email == email2) = some u)
    (h3 : verify_password password2 u.hashed_password = .ok false) :
    signin_user db email1 password1 secret now win = .error "Signin failed" ∧
    signin_user db email2 password2 secret now win = .error "Signin failed" ∧
    signin_endpoint db email1 password1 secret now win
      = .error { status_code := 401, detail := "Signin failed",
                 www_authenticate := none } ∧
    signin_endpoint db email1 password1 secret now win
      = signin_endpoint db email2 password2 secret now win := by
  have hf1 : db.find? (fun x => x.email == email1) = none := by
    rw [List.find?_eq_none]
    intro x hx
    simpa using h1 x hx
  have hs1 : signin_user db email1 password1 secret now win = .error "Signin failed" := by
    simp [signin_user, hf1]
  have hs2 : signin_user db email2 password2 secret now win = .error "Signin failed" := by
    simp [signin_user, h2, h3]
  refine ⟨hs1, hs2, ?_, ?_⟩
  · simp [signin_endpoint, hs1]
  · simp [signin_endpoint, hs1, hs2]

/-- Witness for C7 at a concrete store: an unknown email and a wrong
password against `exUser` produce the identical failure. -/
theorem c7_signin_uniform_failure_witness :
    signin_user [exUser] "b@x.com" "pw1" 5 0 3600 = .error "Signin failed" ∧
    signin_user [exUser] "a@x.com" "hunter2" 5 0 3600 = .error "Signin failed" ∧
    signin_endpoint [exUser] "b@x.com" "pw1" 5 0 3600
      = .error { status_code := 401, detail := "Signin failed",
                 www_authenticate := none } ∧
    signin_endpoint [exUser] "b@x.com" "pw1" 5 0 3600
      = signin_endpoint [exUser] "a@x.com" "hunter2" 5 0 3600 :=
  c7_signin_uniform_failure [exUser] "b@x.com" "a@x.com" "pw1" "hunter2" 5 0 3600
    exUser (by decide) (by rfl) (by rfl)

/-- C8: a token issued by `create_token` over claims {id, user_id, email}
and verified with the same secret at any time strictly before expiry
decodes to exactly the supplied claims plus the two added fields
`iat = now` and `exp = now + window`. -/
theorem c8_issue_verify_roundtrip (payload : JwtPayload) (secret now win now2 : Nat)
    (h : now2 < now + win) :
    verify_token (create_token payload secret now win) secret now2
      = .ok { id := payload.id, user_id := payload.user_id, email := payload.email,
              iat := now, exp := now + win } := by
  simp [create_token, verify_token, Nat.not_le.mpr h]

/-- Witness for C8 at concrete claims: verification one second after
issuance returns the payload plus iat 1000 and exp 1000 + 3600. -/
theorem c8_issue_verify_roundtrip_witness :
    verify_token
        (create_token { id := "u1", user_id := "u1", email := "a@x.com" } 5 1000 3600)
        5 1001
      = .ok { id := "u1", user_id := "u1", email := "a@x.com",
              iat := 1000, exp := 1000 + 3600 } :=
  c8_issue_verify_roundtrip { id := "u1", user_id := "u1", email := "a@x.com" }
    5 1000 3600 1001 (by decide)

end TodoApp
